import Mathlib

/-!
Shallow embedding of `src/goft.py` (adrn/TheJokersWild): a client for the
Gaia Observation Forecast Tool.  The single function `forecast_position`
performs a warm-up GET, a multipart POST submitting the forecast request,
scrapes a result identifier out of the response body, and GETs a CSV export
which it parses into a table.

Network effects are modelled by a `ServiceEnv` providing the responses the
remote service would return and the cookie jar state after the warm-up; the
embedded `forecast_position` returns the list of issued requests (the trace)
together with either an error or the produced output, mirroring the Python
control flow line by line.
-/

/-- Python whitespace characters, as used by `str.split()` with no
separator argument. -/
def pyIsSpace (c : Char) : Bool :=
  c = ' ' || c = '\t' || c = '\n' || c = '\x0d' || c = '\x0b' || c = '\x0c'

/-- Accumulator pass for `pySplit`: walk the characters, collecting the
current token in reverse, emitting it at each whitespace boundary. -/
def pySplitAux : List Char → List Char → List String
  | [], [] => []
  | [], acc => [String.mk acc.reverse]
  | c :: cs, acc =>
      if pyIsSpace c then
        match acc with
        | [] => pySplitAux cs []
        | _ => String.mk acc.reverse :: pySplitAux cs []
      else pySplitAux cs (c :: acc)

/-- Python `s.split()` (no separator): split on runs of whitespace,
discarding empty tokens. -/
def pySplit (s : String) : List String :=
  pySplitAux s.toList []

/-- Does `pat` occur as a contiguous subsequence of `l`? -/
def containsSeq (pat : List Char) : List Char → Bool
  | [] => pat.isPrefixOf []
  | c :: cs => pat.isPrefixOf (c :: cs) || containsSeq pat cs

/-- Python `sub in s`: substring membership test. -/
def pyContains (s sub : String) : Bool :=
  containsSeq sub.toList s.toList

/-- Python `s.split(sep)[0]` for a single-character separator: the prefix
of `s` before the first occurrence of `sep` (all of `s` when `sep` does
not occur; the list returned by `split` is never empty, so index 0 always
exists). -/
def pyPrefixBefore (s : String) (sep : Char) : String :=
  String.mk (s.toList.takeWhile (fun c => c ≠ sep))

/-- Split a character list on a single separator character, keeping empty
pieces, as Python `s.split(sep)` does. -/
def splitOnCharAux (sep : Char) : List Char → List Char → List (List Char)
  | [], acc => [acc.reverse]
  | c :: cs, acc =>
      if c = sep then acc.reverse :: splitOnCharAux sep cs []
      else splitOnCharAux sep cs (c :: acc)

/-- Split a string on a single separator character. -/
def splitOnChar (sep : Char) (s : String) : List String :=
  (splitOnCharAux sep s.toList []).map String.mk

/-- Physical kind of a unit, as distinguished by astropy's
`u.quantity_input(ra=u.deg, dec=u.deg)` decorator: only units convertible
to an angle are accepted. -/
inductive PhysKind where
  | angle
  | length
  | time
  | dimensionless
  | other
deriving DecidableEq, Repr

/-- An astropy unit: its physical kind and, for angular units, the number
of degrees in one such unit (deg ↦ 1, arcmin ↦ 1/60, hourangle ↦ 15, ...).
The factor is meaningless for non-angular kinds. -/
structure AstropyUnit where
  kind : PhysKind
  degFactor : ℚ
deriving DecidableEq, Repr

/-- The unit `u.deg`. -/
def u_deg : AstropyUnit := ⟨PhysKind.angle, 1⟩

/-- The unit `u.arcmin`. -/
def u_arcmin : AstropyUnit := ⟨PhysKind.angle, 1/60⟩

/-- The unit `u.arcsec`. -/
def u_arcsec : AstropyUnit := ⟨PhysKind.angle, 1/3600⟩

/-- The unit `u.hourangle`. -/
def u_hourangle : AstropyUnit := ⟨PhysKind.angle, 15⟩

/-- The unit `u.m` (a length, not convertible to an angle). -/
def u_m : AstropyUnit := ⟨PhysKind.length, 0⟩

/-- An astropy `Quantity`: a numeric value carrying a unit.  Values are
modelled as rationals. -/
structure Quantity where
  value : ℚ
  unit : AstropyUnit
deriving DecidableEq, Repr

/-- `q.to(u.deg).value` for an angular quantity: convert to degrees. -/
def Quantity.toDegValue (q : Quantity) : ℚ :=
  q.value * q.unit.degFactor

/-- A value placed in the multipart form `data` dictionary: the source
uses the integer `1`, strings, and the float degree coordinates. -/
inductive FormValue where
  | intVal (n : ℤ)
  | strVal (s : String)
  | numVal (q : ℚ)
deriving DecidableEq, Repr

/-- An HTTP request issued through the `requests` session, as visible at
the call sites in `forecast_position`. -/
inductive Request where
  | get (url : String) (params : List (String × String))
  | post (url : String) (data : List (String × FormValue))
      (headers : List (String × String)) (files : List (String × String))
deriving DecidableEq, Repr

/-- An HTTP response: status code and body.  `str(r.content)` is modelled
as the body string itself. -/
structure HttpResponse where
  statusCode : ℕ
  content : String
deriving DecidableEq, Repr

/-- `requests.Response.ok`: true iff the status code is below 400. -/
def HttpResponse.ok (r : HttpResponse) : Bool :=
  r.statusCode < 400

/-- The remote service as seen by one call: the warm-up response, the
session's cookie jar after the warm-up (the warm-up GET sets the
`JSESSIONID` cookie), the response to the forecast POST, and the response
to the export GET. -/
structure ServiceEnv where
  warmupResponse : HttpResponse
  cookies : List (String × String)
  submitResponse : HttpResponse
  exportResponse : HttpResponse
deriving DecidableEq, Repr

/-- Errors raised by `forecast_position`, named after the spec's error
taxonomy.  `unitsConversionError` is astropy's `UnitsError` from the
`quantity_input` decorator (InvalidInput); `httpStatusError` is
`requests.HTTPError` from `raise_for_status` and `errorMarker` is the
`AssertionError` from the `"error" not in str(r.content)` assertion (both
RemoteServiceError); `tokenStructureError` is the `IndexError` from
`split()[3]` and `csvMalformedError` the failure of `Table.read` (both
ParseError); `missingCookieError` is the `KeyError` from
`session.cookies["JSESSIONID"]`. -/
inductive GoftError where
  | unitsConversionError
  | httpStatusError (status : ℕ)
  | errorMarker (body : String)
  | tokenStructureError
  | missingCookieError
  | csvMalformedError
deriving DecidableEq, Repr

/-- Errors in the spec's RemoteServiceError class: non-OK HTTP status or
error marker detected in the response body during submission. -/
def GoftError.isRemoteServiceError : GoftError → Bool
  | .httpStatusError _ => true
  | .errorMarker _ => true
  | _ => false

/-- The parsed forecast table: CSV header and rows, no typing or
renaming, as produced by `Table.read(..., format="csv")`. -/
structure ForecastTable where
  header : List String
  rows : List (List String)
deriving DecidableEq, Repr

/-- `Table.read(BytesIO(content), format="csv")`: split the payload into
lines (dropping a trailing empty line), take the first line as the header
and the rest as rows, each split on commas.  An empty payload is
malformed. -/
def tableReadCsv (content : String) : Option ForecastTable :=
  match (splitOnChar '\n' content).filter (fun l => l ≠ "") with
  | [] => none
  | headerLine :: rowLines =>
      some ⟨splitOnChar ',' headerLine, rowLines.map (splitOnChar ',')⟩

/-- The value returned by `forecast_position`: either the table alone, or
(with `full_output=True`) the triple of table, identifier and session
(modelled by its cookie jar). -/
inductive ForecastOutput where
  | tableOnly (forecast : ForecastTable)
  | full (forecast : ForecastTable) (identifier : String)
      (sessionCookies : List (String × String))
deriving DecidableEq, Repr

/-- `_host` constant of the source. -/
def _host : String := "https://gaia.esac.esa.int"

/-- `_default_observing_period_from` constant of the source. -/
def _default_observing_period_from : String := "2014-09-26T00:00:00"

/-- `_default_observing_period_to` constant of the source. -/
def _default_observing_period_to : String := "2019-06-07T00:00:00"

/-- The warm-up request `session.get("{}/gost/".format(_host))`. -/
def warmupRequest : Request :=
  .get (_host ++ "/gost/") []

/-- The forecast submission
`session.post("{}/gost/GostServlet".format(_host), data=..., headers=...,
files=...)` with the `OrderedDict` of form fields from the source. -/
def submitRequest (ra dec : Quantity) (periodFrom periodTo : String) : Request :=
  .post (_host ++ "/gost/GostServlet")
    [("serviceCode", .intVal 1),
     ("srcname", .strVal ""),
     ("inputmode", .strVal "single"),
     ("srcra", .numVal ra.toDegValue),
     ("srcdec", .numVal dec.toDegValue),
     ("from", .strVal periodFrom),
     ("to", .strVal periodTo)]
    [("cache", "false"), ("processData", "false")]
    [("csvfilename", "")]

/-- The export request
`session.get("{0}/gost/export.jsp".format(_host), params=dict(id=identifier,
format=fmt))` with `fmt = "csv"`. -/
def exportRequest (identifier : String) : Request :=
  .get (_host ++ "/gost/export.jsp") [("id", identifier), ("format", "csv")]

/-- Shallow embedding of `forecast_position` from `src/goft.py`.  Returns
the list of HTTP requests issued (in order) together with the outcome.
The `quantity_input` decorator check runs before anything else; the body
then follows the source statement by statement. -/
def forecast_position (ra dec : Quantity)
    (observation_period_from observation_period_to : Option String)
    (full_output : Bool) (env : ServiceEnv) :
    List Request × Except GoftError ForecastOutput :=
  if ra.unit.kind ≠ PhysKind.angle ∨ dec.unit.kind ≠ PhysKind.angle then
    ([], .error .unitsConversionError)
  else
    let periodFrom := observation_period_from.getD _default_observing_period_from
    let periodTo := observation_period_to.getD _default_observing_period_to
    let r := env.submitResponse
    let trace := [warmupRequest, submitRequest ra dec periodFrom periodTo]
    if ¬ r.ok then
      (trace, .error (.httpStatusError r.statusCode))
    else if pyContains r.content "error" then
      (trace, .error (.errorMarker r.content))
    else
      match (pySplit r.content).get? 3 with
      | none => (trace, .error .tokenStructureError)
      | some token =>
        let result_id := pyPrefixBefore token '<'
        match env.cookies.lookup "JSESSIONID" with
        | none => (trace, .error .missingCookieError)
        | some jsessionid =>
          let identifier := jsessionid ++ "/" ++ result_id
          let trace3 := trace ++ [exportRequest identifier]
          match tableReadCsv env.exportResponse.content with
          | none => (trace3, .error .csvMalformedError)
          | some forecast =>
            if full_output then
              (trace3, .ok (.full forecast identifier env.cookies))
            else
              (trace3, .ok (.tableOnly forecast))

/-- Look up a form field in a POST request's `data` dictionary. -/
def Request.formField (r : Request) (key : String) : Option FormValue :=
  match r with
  | .post _ data _ _ => data.lookup key
  | .get _ _ => none

/-- The forecast table carried by either return shape. -/
def ForecastOutput.table : ForecastOutput → ForecastTable
  | .tableOnly t => t
  | .full t _ _ => t

/-- The table produced by a run, when the run succeeded. -/
def resultTable (r : Except GoftError ForecastOutput) : Option ForecastTable :=
  match r with
  | .ok out => some out.table
  | .error _ => none

/-- The error produced by a run, when the run failed. -/
def resultError (r : Except GoftError ForecastOutput) : Option GoftError :=
  match r with
  | .ok _ => none
  | .error e => some e

/-- The service environment of the spec's mocked end-to-end scenario: the
submission response body is `"xxx xxx xxx 12345<br>"`, the export
response is the CSV `"a,b\n1,2\n"`, and the warm-up has set a
`JSESSIONID` cookie (value `"SESSABC"` here). -/
def mockEnv : ServiceEnv :=
  { warmupResponse := ⟨200, ""⟩
  , cookies := [("JSESSIONID", "SESSABC")]
  , submitResponse := ⟨200, "xxx xxx xxx 12345<br>"⟩
  , exportResponse := ⟨200, "a,b\n1,2\n"⟩ }

/-- Quantity for RA = 34.0 degrees, used by the mocked scenario. -/
def q34 : Quantity := ⟨34, u_deg⟩

/-- Quantity for Dec = -13.0 degrees, used by the mocked scenario. -/
def qm13 : Quantity := ⟨-13, u_deg⟩

/-- Helper: for angular inputs, the second issued request (index 1 of the
trace) is always the forecast submission POST, whatever the service
responds. -/
lemma trace_get_one (ra dec : Quantity) (pf pt : Option String) (fo : Bool)
    (env : ServiceEnv) (hra : ra.unit.kind = PhysKind.angle)
    (hdec : dec.unit.kind = PhysKind.angle) :
    (forecast_position ra dec pf pt fo env).1.get? 1 =
      some (submitRequest ra dec (pf.getD _default_observing_period_from)
        (pt.getD _default_observing_period_to)) := by
  unfold forecast_position
  rw [if_neg (by simp [hra, hdec])]
  dsimp only
  split
  · rfl
  · split
    · rfl
    · split
      · rfl
      · split
        · rfl
        · split
          · rfl
          · split
            · rfl
            · rfl

/-- C8: if either coordinate's unit is not convertible to an angle, the
call fails with the InvalidInput error (`UnitsError` from the
`quantity_input` decorator) and the request trace is empty: the failure
happens before any network request is issued. -/
theorem invalid_units_fails_before_network (ra dec : Quantity)
    (pf pt : Option String) (fo : Bool) (env : ServiceEnv)
    (h : ra.unit.kind ≠ PhysKind.angle ∨ dec.unit.kind ≠ PhysKind.angle) :
    forecast_position ra dec pf pt fo env
      = ([], .error .unitsConversionError) := by
  unfold forecast_position
  rw [if_pos h]

/-- Witness for C8: a right ascension carrying metres is rejected with no
request issued. -/
theorem invalid_units_fails_before_network_witness :
    forecast_position ⟨34, u_m⟩ qm13 none none false mockEnv
      = ([], .error .unitsConversionError) :=
  invalid_units_fails_before_network ⟨34, u_m⟩ qm13 none none false mockEnv
    (Or.inl (by decide))

/-- C5: when `observation_period_from` (resp. `observation_period_to`) is
omitted, the `from` (resp. `to`) field of the submitted forecast request
equals the fixed default `"2014-09-26T00:00:00"` (resp.
`"2019-06-07T00:00:00"`), whatever the other bound is. -/
theorem default_period_bounds (ra dec : Quantity) (pf pt : Option String)
    (fo : Bool) (env : ServiceEnv) (hra : ra.unit.kind = PhysKind.angle)
    (hdec : dec.unit.kind = PhysKind.angle) :
    (((forecast_position ra dec none pt fo env).1.get? 1).bind
        (fun r => r.formField "from"))
      = some (.strVal _default_observing_period_from)
    ∧ (((forecast_position ra dec pf none fo env).1.get? 1).bind
        (fun r => r.formField "to"))
      = some (.strVal _default_observing_period_to) := by
  rw [trace_get_one ra dec none pt fo env hra hdec,
    trace_get_one ra dec pf none fo env hra hdec]
  exact ⟨rfl, rfl⟩

/-- Witness for C5 at concrete inputs, with the other bound supplied. -/
theorem default_period_bounds_witness :
    (((forecast_position q34 qm13 none (some "2016-01-01T00:00:00") false
          mockEnv).1.get? 1).bind (fun r => r.formField "from"))
      = some (.strVal _default_observing_period_from)
    ∧ (((forecast_position q34 qm13 (some "2015-01-01T00:00:00") none false
          mockEnv).1.get? 1).bind (fun r => r.formField "to"))
      = some (.strVal _default_observing_period_to) :=
  default_period_bounds q34 qm13 (some "2015-01-01T00:00:00")
    (some "2016-01-01T00:00:00") false mockEnv rfl rfl

/-- C6: for any coordinates carrying angular units, the `srcra` and
`srcdec` fields placed in the submitted form equal the inputs converted
to degrees, whatever the angular unit of each input. -/
theorem coordinates_sent_in_degrees (ra dec : Quantity)
    (pf pt : Option String) (fo : Bool) (env : ServiceEnv)
    (hra : ra.unit.kind = PhysKind.angle)
    (hdec : dec.unit.kind = PhysKind.angle) :
    (((forecast_position ra dec pf pt fo env).1.get? 1).bind
        (fun r => r.formField "srcra"))
      = some (.numVal ra.toDegValue)
    ∧ (((forecast_position ra dec pf pt fo env).1.get? 1).bind
        (fun r => r.formField "srcdec"))
      = some (.numVal dec.toDegValue) := by
  rw [trace_get_one ra dec pf pt fo env hra hdec]
  exact ⟨rfl, rfl⟩

/-- Witness for C6: RA given in arcminutes and Dec in hourangle are both
transmitted converted to degrees. -/
theorem coordinates_sent_in_degrees_witness :
    (((forecast_position ⟨120, u_arcmin⟩ ⟨2, u_hourangle⟩ none none false
          mockEnv).1.get? 1).bind (fun r => r.formField "srcra"))
      = some (.numVal (Quantity.mk 120 u_arcmin).toDegValue)
    ∧ (((forecast_position ⟨120, u_arcmin⟩ ⟨2, u_hourangle⟩ none none false
          mockEnv).1.get? 1).bind (fun r => r.formField "srcdec"))
      = some (.numVal (Quantity.mk 2 u_hourangle).toDegValue) :=
  coordinates_sent_in_degrees ⟨120, u_arcmin⟩ ⟨2, u_hourangle⟩ none none
    false mockEnv rfl rfl

/-- C9: for angular inputs, the forecast submission is the POST to
`/gost/GostServlet` whose form fields are exactly `serviceCode=1`,
`srcname=""`, `inputmode="single"`, `srcra`/`srcdec` as degree values and
the `from`/`to` timestamps, with headers `cache=false`,
`processData=false` and the empty `csvfilename` file part. -/
theorem submit_request_exact_fields (ra dec : Quantity)
    (pf pt : Option String) (fo : Bool) (env : ServiceEnv)
    (hra : ra.unit.kind = PhysKind.angle)
    (hdec : dec.unit.kind = PhysKind.angle) :
    (forecast_position ra dec pf pt fo env).1.get? 1 =
      some (Request.post (_host ++ "/gost/GostServlet")
        [("serviceCode", FormValue.intVal 1),
         ("srcname", FormValue.strVal ""),
         ("inputmode", FormValue.strVal "single"),
         ("srcra", FormValue.numVal ra.toDegValue),
         ("srcdec", FormValue.numVal dec.toDegValue),
         ("from", FormValue.strVal (pf.getD _default_observing_period_from)),
         ("to", FormValue.strVal (pt.getD _default_observing_period_to))]
        [("cache", "false"), ("processData", "false")]
        [("csvfilename", "")]) := by
  rw [trace_get_one ra dec pf pt fo env hra hdec]
  rfl

/-- Witness for C9 at the mocked scenario's inputs. -/
theorem submit_request_exact_fields_witness :
    (forecast_position q34 qm13 none none true mockEnv).1.get? 1 =
      some (Request.post (_host ++ "/gost/GostServlet")
        [("serviceCode", FormValue.intVal 1),
         ("srcname", FormValue.strVal ""),
         ("inputmode", FormValue.strVal "single"),
         ("srcra", FormValue.numVal q34.toDegValue),
         ("srcdec", FormValue.numVal qm13.toDegValue),
         ("from", FormValue.strVal
            ((none : Option String).getD _default_observing_period_from)),
         ("to", FormValue.strVal
            ((none : Option String).getD _default_observing_period_to))]
        [("cache", "false"), ("processData", "false")]
        [("csvfilename", "")]) :=
  submit_request_exact_fields q34 qm13 none none true mockEnv rfl rfl

/-- C2: in the mocked end-to-end scenario (RA 34°, Dec −13°, default
period, submission body `"xxx xxx xxx 12345<br>"`, export CSV
`"a,b\n1,2\n"`), the parsed result id is `"12345"` (visible in the export
request's composed identifier) and the returned table has exactly the
columns `a,b` and the single row `(1,2)`. -/
theorem mocked_scenario :
    (forecast_position q34 qm13 none none false mockEnv).2
      = .ok (.tableOnly ⟨["a", "b"], [["1", "2"]]⟩)
    ∧ (forecast_position q34 qm13 none none false mockEnv).1.get? 2
      = some (exportRequest "SESSABC/12345")
    ∧ pyPrefixBefore ((pySplit "xxx xxx xxx 12345<br>").getD 3 "") '<'
      = "12345" :=
  ⟨rfl, rfl, rfl⟩

/-- C1: whenever the submission passes the status and error-marker checks,
the result identifier is the fourth whitespace-delimited token of the
response body trimmed at the first `<`, and the full identifier both sent
to the export endpoint and returned in full output is
`<JSESSIONID cookie>/<parsed result id>`. -/
theorem identifier_composition (ra dec : Quantity) (pf pt : Option String)
    (fo : Bool) (env : ServiceEnv)
    (hra : ra.unit.kind = PhysKind.angle)
    (hdec : dec.unit.kind = PhysKind.angle)
    (hok : env.submitResponse.ok = true)
    (herr : pyContains env.submitResponse.content "error" = false)
    (tok : String)
    (htok : (pySplit env.submitResponse.content).get? 3 = some tok)
    (jsid : String) (hck : env.cookies.lookup "JSESSIONID" = some jsid) :
    (forecast_position ra dec pf pt fo env).1.get? 2
      = some (exportRequest (jsid ++ "/" ++ pyPrefixBefore tok '<'))
    ∧ ∀ tbl idf s, (forecast_position ra dec pf pt fo env).2
        = .ok (.full tbl idf s)
        → idf = jsid ++ "/" ++ pyPrefixBefore tok '<' := by
  unfold forecast_position
  rw [if_neg (by simp [hra, hdec])]
  simp only [hok, herr, htok, hck, not_true, Bool.false_eq_true, if_false]
  cases hcsv : tableReadCsv env.exportResponse.content with
  | none => simp [hcsv]
  | some tbl =>
    cases fo <;> simp [hcsv]

/-- Witness for C1 at the mocked scenario: the fourth token of
`"xxx xxx xxx 12345<br>"` trimmed at `<` is `"12345"` and the identifier
is composed with the `JSESSIONID` cookie value. -/
theorem identifier_composition_witness :
    (forecast_position q34 qm13 none none true mockEnv).1.get? 2
      = some (exportRequest ("SESSABC" ++ "/" ++ pyPrefixBefore "12345<br>" '<'))
    ∧ ∀ tbl idf s, (forecast_position q34 qm13 none none true mockEnv).2
        = .ok (.full tbl idf s)
        → idf = "SESSABC" ++ "/" ++ pyPrefixBefore "12345<br>" '<' :=
  identifier_composition q34 qm13 none none true mockEnv rfl rfl rfl rfl
    "12345<br>" rfl "SESSABC" rfl

/-- C3: whenever the submission response body contains the substring
`"error"`, the call fails with an error of the RemoteServiceError class
and no table is returned; when the HTTP status is moreover OK, the error
is precisely the error-marker assertion failure. -/
theorem error_marker_raises (ra dec : Quantity) (pf pt : Option String)
    (fo : Bool) (env : ServiceEnv)
    (hra : ra.unit.kind = PhysKind.angle)
    (hdec : dec.unit.kind = PhysKind.angle)
    (hmark : pyContains env.submitResponse.content "error" = true) :
    (∃ e, (forecast_position ra dec pf pt fo env).2 = .error e
        ∧ e.isRemoteServiceError = true)
    ∧ (env.submitResponse.ok = true →
        (forecast_position ra dec pf pt fo env).2
          = .error (.errorMarker env.submitResponse.content)) := by
  unfold forecast_position
  rw [if_neg (by simp [hra, hdec])]
  by_cases hok : env.submitResponse.ok
  · refine ⟨⟨.errorMarker env.submitResponse.content, ?_, rfl⟩, fun _ => ?_⟩ <;>
      simp [hok, hmark]
  · refine ⟨⟨.httpStatusError env.submitResponse.statusCode, ?_, rfl⟩,
      fun h => absurd h (by simp [hok])⟩
    simp [hok]

/-- Environment whose OK submission response carries the service's actual
error message, which contains the `"error"` marker. -/
def envErrorMarker : ServiceEnv :=
  { mockEnv with
      submitResponse := ⟨200, "The following error occurred: null"⟩ }

/-- Witness for C3: an OK response whose body reads
`"The following error occurred: null"` fails with the error marker. -/
theorem error_marker_raises_witness :
    (∃ e, (forecast_position q34 qm13 none none false envErrorMarker).2
        = .error e ∧ e.isRemoteServiceError = true)
    ∧ (envErrorMarker.submitResponse.ok = true →
        (forecast_position q34 qm13 none none false envErrorMarker).2
          = .error (.errorMarker envErrorMarker.submitResponse.content)) :=
  error_marker_raises q34 qm13 none none false envErrorMarker rfl rfl rfl

/-- Environment whose OK submission response body is exactly `"error"`:
it lacks a fourth whitespace-delimited token AND contains the error
marker. -/
def envErrorBody : ServiceEnv :=
  { mockEnv with submitResponse := ⟨200, "error"⟩ }

/-- Counterexample to C4 as stated: the body `"error"` has no fourth
whitespace-delimited token, yet the call does not raise ParseError (the
error-marker check fires first and raises RemoteServiceError instead). -/
theorem missing_token_counterexample :
    (pySplit envErrorBody.submitResponse.content).get? 3 = none
    ∧ (forecast_position q34 qm13 none none false envErrorBody).2
        ≠ .error .tokenStructureError := by
  refine ⟨rfl, fun h => ?_⟩
  have h2 : (forecast_position q34 qm13 none none false envErrorBody).2
      = .error (.errorMarker "error") := rfl
  rw [h2] at h
  simp at h

/-- C4 (amended): for every OK submission response whose body does not
contain the substring `"error"` and lacks a fourth whitespace-delimited
token, the call raises ParseError (the `IndexError` of `split()[3]`). -/
theorem missing_token_parse_error (ra dec : Quantity) (pf pt : Option String)
    (fo : Bool) (env : ServiceEnv)
    (hra : ra.unit.kind = PhysKind.angle)
    (hdec : dec.unit.kind = PhysKind.angle)
    (hok : env.submitResponse.ok = true)
    (herr : pyContains env.submitResponse.content "error" = false)
    (htok : (pySplit env.submitResponse.content).get? 3 = none) :
    (forecast_position ra dec pf pt fo env).2
      = .error .tokenStructureError := by
  unfold forecast_position
  rw [if_neg (by simp [hra, hdec])]
  rw [List.get?_eq_getElem?] at htok
  simp [hok, herr, htok]

/-- Environment whose OK submission response body has only three
whitespace-delimited tokens and no error marker. -/
def envShortBody : ServiceEnv :=
  { mockEnv with submitResponse := ⟨200, "a b c"⟩ }

/-- Witness for the amended C4: the three-token body `"a b c"` raises
ParseError. -/
theorem missing_token_parse_error_witness :
    (forecast_position q34 qm13 none none false envShortBody).2
      = .error .tokenStructureError :=
  missing_token_parse_error q34 qm13 none none false envShortBody
    rfl rfl rfl rfl rfl

/-- Helper: whenever a run succeeds, its output carries a table; with
`full_output=true` it is the full triple whose identifier is composed
with a `/`, and with `full_output=false` it is the bare table. -/
lemma success_shape (ra dec : Quantity) (pf pt : Option String) (fo : Bool)
    (env : ServiceEnv) (out : ForecastOutput)
    (h : (forecast_position ra dec pf pt fo env).2 = .ok out) :
    ∃ tbl, (fo = true →
        ∃ jsid rid, out = .full tbl (jsid ++ "/" ++ rid) env.cookies)
      ∧ (fo = false → out = .tableOnly tbl) := by
  unfold forecast_position at h
  by_cases h1 : ra.unit.kind ≠ PhysKind.angle ∨ dec.unit.kind ≠ PhysKind.angle
  · simp [h1] at h
  · rw [if_neg h1] at h
    by_cases hok : env.submitResponse.ok
    · by_cases hmark : pyContains env.submitResponse.content "error"
      · simp [hok, hmark] at h
      · cases htok : (pySplit env.submitResponse.content)[3]? with
        | none => simp [hok, hmark, htok] at h
        | some tok =>
          cases hck : env.cookies.lookup "JSESSIONID" with
          | none => simp [hok, hmark, htok, hck] at h
          | some jsid =>
            cases hcsv : tableReadCsv env.exportResponse.content with
            | none => simp [hok, hmark, htok, hck, hcsv] at h
            | some tbl =>
              cases fo with
              | true =>
                simp [hok, hmark, htok, hck, hcsv] at h
                exact ⟨tbl, fun _ => ⟨jsid, pyPrefixBefore tok '<', h.symm⟩,
                  fun hf => Bool.noConfusion hf⟩
              | false =>
                simp [hok, hmark, htok, hck, hcsv] at h
                exact ⟨tbl, fun ht => Bool.noConfusion ht, fun _ => h.symm⟩
    · simp [hok] at h

/-- C7: a `full_output=true` call that returns does so with a 3-element
result (table, identifier, session) whose identifier matches
`<text>/<text>`, while a `full_output=false` call returns only the
table. -/
theorem full_output_shape (ra dec : Quantity) (pf pt : Option String)
    (env : ServiceEnv) :
    (∀ out, (forecast_position ra dec pf pt true env).2 = .ok out →
        ∃ tbl idf s, out = .full tbl idf s ∧ ∃ a b, idf = a ++ "/" ++ b)
    ∧ (∀ out, (forecast_position ra dec pf pt false env).2 = .ok out →
        ∃ tbl, out = .tableOnly tbl) := by
  constructor
  · intro out h
    obtain ⟨tbl, h1, -⟩ := success_shape ra dec pf pt true env out h
    obtain ⟨jsid, rid, rfl⟩ := h1 rfl
    exact ⟨tbl, jsid ++ "/" ++ rid, env.cookies, rfl, jsid, rid, rfl⟩
  · intro out h
    obtain ⟨tbl, -, h2⟩ := success_shape ra dec pf pt false env out h
    exact ⟨tbl, h2 rfl⟩

/-- Witness for C7 at the mocked scenario's concrete outputs. -/
theorem full_output_shape_witness :
    (∃ tbl idf s, ForecastOutput.full ⟨["a", "b"], [["1", "2"]]⟩
        "SESSABC/12345" mockEnv.cookies = .full tbl idf s
        ∧ ∃ a b, idf = a ++ "/" ++ b)
    ∧ (∃ tbl, ForecastOutput.tableOnly ⟨["a", "b"], [["1", "2"]]⟩
        = .tableOnly tbl) :=
  ⟨(full_output_shape q34 qm13 none none mockEnv).1
      (ForecastOutput.full ⟨["a", "b"], [["1", "2"]]⟩ "SESSABC/12345"
        mockEnv.cookies) rfl,
   (full_output_shape q34 qm13 none none mockEnv).2
      (ForecastOutput.tableOnly ⟨["a", "b"], [["1", "2"]]⟩) rfl⟩

/-- C10: two calls that differ only in the `full_output` flag issue the
same warm-up, forecast and export requests, produce the same forecast
table, and fail with the same error when they fail: the flag influences
only the shape of the returned value, never the computation. -/
theorem full_output_noninterference (ra dec : Quantity)
    (pf pt : Option String) (env : ServiceEnv) :
    (forecast_position ra dec pf pt true env).1
      = (forecast_position ra dec pf pt false env).1
    ∧ resultTable (forecast_position ra dec pf pt true env).2
      = resultTable (forecast_position ra dec pf pt false env).2
    ∧ resultError (forecast_position ra dec pf pt true env).2
      = resultError (forecast_position ra dec pf pt false env).2 := by
  unfold forecast_position
  by_cases h1 : ra.unit.kind ≠ PhysKind.angle ∨ dec.unit.kind ≠ PhysKind.angle
  · simp [h1]
  · rw [if_neg h1, if_neg h1]
    by_cases hok : env.submitResponse.ok
    · by_cases hmark : pyContains env.submitResponse.content "error"
      · simp [hok, hmark]
      · cases htok : (pySplit env.submitResponse.content)[3]? with
        | none => simp [hok, hmark, htok]
        | some tok =>
          cases hck : env.cookies.lookup "JSESSIONID" with
          | none => simp [hok, hmark, htok, hck]
          | some jsid =>
            cases hcsv : tableReadCsv env.exportResponse.content with
            | none => simp [hok, hmark, htok, hck, hcsv]
            | some tbl =>
              simp [hok, hmark, htok, hck, hcsv, resultTable, resultError,
                ForecastOutput.table]
    · simp [hok]
